import Mathlib

/-!
Shallow embedding of the pwrAB power-analysis package
(`src/pwrAB/pwr_classes.py`) and verification of the frozen claims.

The numeric domain is an arbitrary linear ordered field `K` with a floor
structure (so that python's `math.ceil` is available); all definitions are
computable and can be instantiated at `K = ℚ` for concrete evaluation.
The external library services the code consumes (scipy's noncentral-t
cdf/sf, the central-t quantile functions, `math.sqrt`, and the scalar
root finders `bisect`/`brentq`/`ridder`/`toms748`) are passed in as
explicit function records, mirroring the spec's statement that they are
environment collaborators.
-/

/-- Python exception kinds relevant to the embedded code: `ValueError`
(raised by the root finders on a non-straddling bracket, by `min` on an
empty sequence, and by the final `else` branches) and `TypeError`
(raised by arithmetic on `None`). -/
inductive PyErr where
  | valueError : PyErr
  | typeError : PyErr
deriving DecidableEq

/-- The library services consumed from the environment:
`sqrt` is `math.sqrt`; `nct_cdf q df nc` is `scipy.stats.nct.cdf(q, df=df, nc=nc)`;
`nct_sf` the corresponding survival function; `t_ppf p df` is
`scipy.stats.t.ppf(p, df=df)` (the central-t quantile) and `t_isf` its
inverse survival function. -/
structure Libs (K : Type) where
  sqrt : K → K
  nct_cdf : K → K → K → K
  nct_sf : K → K → K → K
  t_ppf : K → K → K
  t_isf : K → K → K

/-- The scalar root finders from `scipy.optimize`, each taking a residual
function and a bracket and either returning a root or failing
(scipy raises `ValueError` when the bracket does not straddle a root). -/
structure Env (K : Type) where
  libs : Libs K
  bisect : (K → K) → K → K → Except PyErr K
  brentq : (K → K) → K → K → Except PyErr K
  ridder : (K → K) → K → K → Except PyErr K
  toms748 : (K → K) → K → K → Except PyErr K

/-- Python's `str.casefold`, which for the ASCII strings appearing in this
code coincides with lower-casing every character. -/
def pyCasefold (s : String) : String :=
  String.mk (s.data.map Char.toLower)

/-- `numpy.arange(start, stop, step)`: the arithmetic grid
`start + k·step` for `0 ≤ k < ⌈(stop − start)/step⌉`. -/
def npArange {K : Type} [LinearOrderedField K] [FloorRing K]
    (start stop step : K) : List K :=
  (List.range (⌈(stop - start) / step⌉).toNat).map (fun k : ℕ => start + step * (k : K))

namespace ab_t2n_class

variable {K : Type} [LinearOrderedField K] [FloorRing K]

/-- The post-`__init__` state of `ab_t2n_class`: optional fields are the
python attributes that may hold `None`. -/
structure State (K : Type) where
  n : Option K
  percent_b : Option K
  mean_diff : Option K
  sd_a : K
  sd_b : K
  sig_level : Option K
  power : Option K
  alternative : String
  max_sample : K
deriving DecidableEq

/-- The dictionary returned by `ab_t2n_class.pwr_test`. -/
structure Result (K : Type) where
  n : Option K
  percent_b : Option K
  mean_diff : Option K
  sd_a : K
  sd_b : K
  sig_level : Option K
  power : Option K
  alternative : String
  method : String
deriving DecidableEq

/-- `ab_t2n_class.__init__`.  The alternative is casefolded, `max_sample`
is ceiled, and a supplied `mean_diff` is stored as its absolute value
exactly when the (casefolded) alternative is `"two-sided"`.
(In python, `abs(mean_diff)` with `mean_diff = None` and a two-sided
alternative raises `TypeError`; the claims only exercise `init` away from
that combination, so the total `Option.map` rendering agrees with the
source wherever it is used.) -/
def init (n percent_b mean_diff : Option K) (sd_a sd_b : K)
    (sig_level power : Option K) (alternative : String) (max_sample : K) :
    State K :=
  let alt := pyCasefold alternative
  { n := n
    percent_b := percent_b
    mean_diff := if alt = "two-sided" then mean_diff.map (fun d => |d|) else mean_diff
    sd_a := sd_a
    sd_b := sd_b
    sig_level := sig_level
    power := power
    alternative := alt
    max_sample := ((⌈max_sample⌉ : ℤ) : K) }

/-- `ab_t2n_class._get_power`, with the attributes it reads passed as the
(unwrapped) field values. -/
def get_power (lib : Libs K) (n percent_b mean_diff sd_a sd_b sig_level : K)
    (alternative : String) : K :=
  let n_b := n * percent_b
  let n_a := n - n_b
  let var_a := sd_a ^ 2
  let var_b := sd_b ^ 2
  let pooled_var := var_a / n_a + var_b / n_b
  let df_ws := pooled_var ^ 2 /
    ((var_a / n_a) ^ 2 / (n_a - 1) + (var_b / n_b) ^ 2 / (n_b - 1))
  let t_stat := mean_diff / lib.sqrt pooled_var
  if alternative = "less" then
    lib.nct_cdf (lib.t_ppf sig_level df_ws) df_ws t_stat
  else if alternative = "two-sided" then
    let qu := lib.t_isf (sig_level / 2) df_ws
    lib.nct_sf qu df_ws t_stat + lib.nct_cdf (-qu) df_ws t_stat
  else
    lib.nct_sf (lib.t_isf sig_level df_ws) df_ws t_stat

/-- `ab_t2n_class._get_n`: the root-finding residual in the trial sample
size `x` (the source duplicates the full power formula and subtracts the
target power in every branch; the duplication is kept here). -/
def get_n (lib : Libs K) (percent_b mean_diff sd_a sd_b sig_level power : K)
    (alternative : String) (x : K) : K :=
  let n_b := x * percent_b
  let n_a := x - n_b
  let var_a := sd_a ^ 2
  let var_b := sd_b ^ 2
  let pooled_var := var_a / n_a + var_b / n_b
  let df_ws := pooled_var ^ 2 /
    ((var_a / n_a) ^ 2 / (n_a - 1) + (var_b / n_b) ^ 2 / (n_b - 1))
  let t_stat := mean_diff / lib.sqrt pooled_var
  if alternative = "less" then
    lib.nct_cdf (lib.t_ppf sig_level df_ws) df_ws t_stat - power
  else if alternative = "two-sided" then
    let qu := lib.t_isf (sig_level / 2) df_ws
    lib.nct_sf qu df_ws t_stat + lib.nct_cdf (-qu) df_ws t_stat - power
  else
    lib.nct_sf (lib.t_isf sig_level df_ws) df_ws t_stat - power

/-- `ab_t2n_class._get_percent_b`: the residual in the trial allocation
fraction `x`. -/
def get_percent_b (lib : Libs K) (n mean_diff sd_a sd_b sig_level power : K)
    (alternative : String) (x : K) : K :=
  let n_b := n * x
  let n_a := n - n_b
  let var_a := sd_a ^ 2
  let var_b := sd_b ^ 2
  let pooled_var := var_a / n_a + var_b / n_b
  let df_ws := pooled_var ^ 2 /
    ((var_a / n_a) ^ 2 / (n_a - 1) + (var_b / n_b) ^ 2 / (n_b - 1))
  let t_stat := mean_diff / lib.sqrt pooled_var
  if alternative = "less" then
    lib.nct_cdf (lib.t_ppf sig_level df_ws) df_ws t_stat - power
  else if alternative = "two-sided" then
    let qu := lib.t_isf (sig_level / 2) df_ws
    lib.nct_sf qu df_ws t_stat + lib.nct_cdf (-qu) df_ws t_stat - power
  else
    lib.nct_sf (lib.t_isf sig_level df_ws) df_ws t_stat - power

/-- `ab_t2n_class._get_mean_diff`: the residual in the trial mean
difference `x`. -/
def get_mean_diff (lib : Libs K) (n percent_b sd_a sd_b sig_level power : K)
    (alternative : String) (x : K) : K :=
  let n_b := n * percent_b
  let n_a := n - n_b
  let var_a := sd_a ^ 2
  let var_b := sd_b ^ 2
  let pooled_var := var_a / n_a + var_b / n_b
  let df_ws := pooled_var ^ 2 /
    ((var_a / n_a) ^ 2 / (n_a - 1) + (var_b / n_b) ^ 2 / (n_b - 1))
  let t_stat := x / lib.sqrt pooled_var
  if alternative = "less" then
    lib.nct_cdf (lib.t_ppf sig_level df_ws) df_ws t_stat - power
  else if alternative = "two-sided" then
    let qu := lib.t_isf (sig_level / 2) df_ws
    lib.nct_sf qu df_ws t_stat + lib.nct_cdf (-qu) df_ws t_stat - power
  else
    lib.nct_sf (lib.t_isf sig_level df_ws) df_ws t_stat - power

/-- `ab_t2n_class._get_sig_level`: the residual in the trial significance
level `x`. -/
def get_sig_level (lib : Libs K) (n percent_b mean_diff sd_a sd_b power : K)
    (alternative : String) (x : K) : K :=
  let n_b := n * percent_b
  let n_a := n - n_b
  let var_a := sd_a ^ 2
  let var_b := sd_b ^ 2
  let pooled_var := var_a / n_a + var_b / n_b
  let df_ws := pooled_var ^ 2 /
    ((var_a / n_a) ^ 2 / (n_a - 1) + (var_b / n_b) ^ 2 / (n_b - 1))
  let t_stat := mean_diff / lib.sqrt pooled_var
  if alternative = "less" then
    lib.nct_cdf (lib.t_ppf x df_ws) df_ws t_stat - power
  else if alternative = "two-sided" then
    let qu := lib.t_isf (x / 2) df_ws
    lib.nct_sf qu df_ws t_stat + lib.nct_cdf (-qu) df_ws t_stat - power
  else
    lib.nct_sf (lib.t_isf x df_ws) df_ws t_stat - power

/-- The result dictionary assembled at the end of `pwr_test` from the
mutated state. -/
def toResult (self : State K) : Result K :=
  { n := self.n
    percent_b := self.percent_b
    mean_diff := self.mean_diff
    sd_a := self.sd_a
    sd_b := self.sd_b
    sig_level := self.sig_level
    power := self.power
    alternative := self.alternative
    method := "t-test Power Calculation" }

/-- `ab_t2n_class.pwr_test`.  Field reads that would be arithmetic on
`None` in python surface as `TypeError`; a root finder's bracket failure
is scipy's `ValueError`, and the `except ValueError` fallback for the
`n` search catches exactly that error kind. -/
def pwr_test (env : Env K) (self : State K) : Except PyErr (Result K) :=
  match self.power with
  | none =>
    match self.n, self.percent_b, self.mean_diff, self.sig_level with
    | some nv, some pbv, some mdv, some sigv =>
      .ok (toResult { self with
        power := some (get_power env.libs nv pbv mdv self.sd_a self.sd_b sigv
          self.alternative) })
    | _, _, _, _ => .error .typeError
  | some powv =>
    match self.n with
    | none =>
      match self.percent_b, self.mean_diff, self.sig_level with
      | some pbv, some mdv, some sigv =>
        let min_n := max (5 / pbv) (5 / (1 - pbv))
        let f := fun x => get_n env.libs pbv mdv self.sd_a self.sd_b sigv powv
          self.alternative x
        match env.bisect f min_n (self.max_sample + 1) with
        | .ok r => .ok (toResult { self with n := some ((⌈r⌉ : ℤ) : K) })
        | .error .valueError =>
          match env.bisect f min_n (self.max_sample / 10 + 1) with
          | .ok r => .ok (toResult { self with n := some ((⌈r⌉ : ℤ) : K) })
          | .error e => .error e
        | .error .typeError => .error .typeError
      | _, _, _ => .error .typeError
    | some nv =>
      match self.percent_b with
      | none =>
        match self.mean_diff, self.sig_level with
        | some mdv, some sigv =>
          let min_percent_b := max (1 / 1000) (10 / nv)
          let search_grid := npArange min_percent_b (1 - min_percent_b) (1 / 10000)
          match search_grid.find? (fun x =>
              decide (0 < get_percent_b env.libs nv mdv self.sd_a self.sd_b sigv
                powv self.alternative x)) with
          | some v => .ok (toResult { self with percent_b := some v })
          | none => .error .valueError
        | _, _ => .error .typeError
      | some pbv =>
        match self.mean_diff with
        | none =>
          match self.sig_level with
          | some sigv =>
            let f := fun x => get_mean_diff env.libs nv pbv self.sd_a self.sd_b
              sigv powv self.alternative x
            if self.alternative = "less" then
              match env.brentq f (-10000) 0 with
              | .ok r => .ok (toResult { self with mean_diff := some r })
              | .error e => .error e
            else
              match env.brentq f 0 10000 with
              | .ok r => .ok (toResult { self with mean_diff := some r })
              | .error e => .error e
          | none => .error .typeError
        | some mdv =>
          match self.sig_level with
          | none =>
            let f := fun x => get_sig_level env.libs nv pbv mdv self.sd_a
              self.sd_b powv self.alternative x
            match env.brentq f (1 / 10 ^ 10) (1 - 1 / 10 ^ 10) with
            | .ok r => .ok (toResult { self with sig_level := some r })
            | .error e => .error e
          | some _ => .error .valueError

end ab_t2n_class

/-- The shape of a solved proportion in the result dictionary of
`ab_t2n_prop_class.pwr_test`: a single root, or the two-element list
`[root_2, root_1]`. -/
inductive PropVal (K : Type) where
  | scalar : K → PropVal K
  | pair : K → K → PropVal K
deriving DecidableEq

namespace ab_t2n_prop_class

variable {K : Type} [LinearOrderedField K] [FloorRing K]

/-- The post-`__init__` state of `ab_t2n_prop_class`; `mean_diff`,
`sd_a`, `sd_b` are the derived attributes (each `None` when the
proportion it depends on is absent). -/
structure State (K : Type) where
  prop_a : Option K
  prop_b : Option K
  n : Option K
  percent_b : Option K
  sig_level : Option K
  power : Option K
  alternative : String
  max_sample : K
  mean_diff : Option K
  sd_a : Option K
  sd_b : Option K
deriving DecidableEq

/-- The dictionary returned by `ab_t2n_prop_class.pwr_test` (the solved
proportion may be a scalar, a two-element list, or `None`). -/
structure Result (K : Type) where
  n : Option K
  percent_b : Option K
  mean_diff : Option K
  sd_a : Option K
  sd_b : Option K
  prop_a : Option (PropVal K)
  prop_b : Option (PropVal K)
  sig_level : Option K
  power : Option K
  alternative : String
  method : String
deriving DecidableEq

/-- `ab_t2n_prop_class.__init__`: casefolds the alternative, derives
`mean_diff` when both proportions are present (absolute difference for a
two-sided alternative, signed otherwise) and the per-group binomial
standard deviations from each present proportion.  `max_sample` is stored
as passed (the proportion class does not ceil it). -/
def init (lib : Libs K) (prop_a prop_b n percent_b sig_level power : Option K)
    (alternative : String) (max_sample : K) : State K :=
  let alt := pyCasefold alternative
  { prop_a := prop_a
    prop_b := prop_b
    n := n
    percent_b := percent_b
    sig_level := sig_level
    power := power
    alternative := alt
    max_sample := max_sample
    mean_diff :=
      match prop_a, prop_b with
      | some a, some b => some (if alt = "two-sided" then |b - a| else b - a)
      | _, _ => none
    sd_a := prop_a.map (fun a => lib.sqrt (a * (1 - a)))
    sd_b := prop_b.map (fun b => lib.sqrt (b * (1 - b))) }

/-- `ab_t2n_prop_class._get_power`: delegates to a freshly constructed
`ab_t2n_class` fed with the derived fields, so the alternative is
casefolded a second time and the derived `mean_diff` passes through the
continuous constructor's two-sided absolute-value normalization. -/
def get_power (lib : Libs K) (n percent_b mean_diff sd_a sd_b sig_level : K)
    (alternative : String) : K :=
  let alt := pyCasefold alternative
  ab_t2n_class.get_power lib n percent_b
    (if alt = "two-sided" then |mean_diff| else mean_diff) sd_a sd_b sig_level alt

/-- `ab_t2n_prop_class._get_n`: the sample-size residual, delegated
through a freshly constructed `ab_t2n_class` as in `get_power`. -/
def get_n (lib : Libs K) (percent_b mean_diff sd_a sd_b sig_level power : K)
    (alternative : String) (x : K) : K :=
  let alt := pyCasefold alternative
  ab_t2n_class.get_n lib percent_b
    (if alt = "two-sided" then |mean_diff| else mean_diff) sd_a sd_b sig_level
    power alt x

/-- `ab_t2n_prop_class._get_percent_b`, delegated as in `get_power`. -/
def get_percent_b (lib : Libs K) (n mean_diff sd_a sd_b sig_level power : K)
    (alternative : String) (x : K) : K :=
  let alt := pyCasefold alternative
  ab_t2n_class.get_percent_b lib n
    (if alt = "two-sided" then |mean_diff| else mean_diff) sd_a sd_b sig_level
    power alt x

/-- `ab_t2n_prop_class._get_sig_level`, delegated as in `get_power`. -/
def get_sig_level (lib : Libs K) (n percent_b mean_diff sd_a sd_b power : K)
    (alternative : String) (x : K) : K :=
  let alt := pyCasefold alternative
  ab_t2n_class.get_sig_level lib n percent_b
    (if alt = "two-sided" then |mean_diff| else mean_diff) sd_a sd_b power alt x

/-- `ab_t2n_prop_class._get_prop_a`: the residual in the trial `prop_a`
`x`, re-deriving `mean_diff` and `sd_a` from `x` before evaluating the
(duplicated) power formula minus the target power. -/
def get_prop_a (lib : Libs K) (prop_b n percent_b sd_b sig_level power : K)
    (alternative : String) (x : K) : K :=
  let mean_diff := if alternative = "two-sided" then |prop_b - x| else prop_b - x
  let sd_a := lib.sqrt (x * (1 - x))
  let n_b := n * percent_b
  let n_a := n - n_b
  let var_a := sd_a ^ 2
  let var_b := sd_b ^ 2
  let pooled_var := var_a / n_a + var_b / n_b
  let df_ws := pooled_var ^ 2 /
    ((var_a / n_a) ^ 2 / (n_a - 1) + (var_b / n_b) ^ 2 / (n_b - 1))
  let t_stat := mean_diff / lib.sqrt pooled_var
  if alternative = "less" then
    lib.nct_cdf (lib.t_ppf sig_level df_ws) df_ws t_stat - power
  else if alternative = "two-sided" then
    let qu := lib.t_isf (sig_level / 2) df_ws
    lib.nct_sf qu df_ws t_stat + lib.nct_cdf (-qu) df_ws t_stat - power
  else
    lib.nct_sf (lib.t_isf sig_level df_ws) df_ws t_stat - power

/-- `ab_t2n_prop_class._get_prop_b`: the residual in the trial `prop_b`
`x`, re-deriving `mean_diff` and `sd_b` from `x`. -/
def get_prop_b (lib : Libs K) (prop_a n percent_b sd_a sig_level power : K)
    (alternative : String) (x : K) : K :=
  let mean_diff := if alternative = "two-sided" then |x - prop_a| else x - prop_a
  let sd_b := lib.sqrt (x * (1 - x))
  let n_b := n * percent_b
  let n_a := n - n_b
  let var_a := sd_a ^ 2
  let var_b := sd_b ^ 2
  let pooled_var := var_a / n_a + var_b / n_b
  let df_ws := pooled_var ^ 2 /
    ((var_a / n_a) ^ 2 / (n_a - 1) + (var_b / n_b) ^ 2 / (n_b - 1))
  let t_stat := mean_diff / lib.sqrt pooled_var
  if alternative = "less" then
    lib.nct_cdf (lib.t_ppf sig_level df_ws) df_ws t_stat - power
  else if alternative = "two-sided" then
    let qu := lib.t_isf (sig_level / 2) df_ws
    lib.nct_sf qu df_ws t_stat + lib.nct_cdf (-qu) df_ws t_stat - power
  else
    lib.nct_sf (lib.t_isf sig_level df_ws) df_ws t_stat - power

/-- One try/except rung ladder: attempt the root finder on each candidate
bracket in order, catching `ValueError` (scipy's bracket failure) and
moving to the next rung; return `none` when every rung failed.  Any other
error kind propagates, as an uncaught python exception would. -/
def try_rungs (rf : (K → K) → K → K → Except PyErr K) (f : K → K) :
    List (K × K) → Except PyErr (Option K)
  | [] => .ok none
  | (a, b) :: rest =>
    match rf f a b with
    | .ok r => .ok (some r)
    | .error .valueError => try_rungs rf f rest
    | .error .typeError => .error .typeError

/-- The combine step for the two-sided `prop_a` search (source lines
348–356): both roots give the list `[root_2, root_1]`, one root gives
that scalar, no root gives `None`. -/
def combine_roots (root_1 root_2 : Option K) : Option (PropVal K) :=
  match root_1, root_2 with
  | some r1, some r2 => some (.pair r2 r1)
  | some r1, none => some (.scalar r1)
  | none, some r2 => some (.scalar r2)
  | none, none => none

/-- The result dictionary assembled at the end of
`ab_t2n_prop_class.pwr_test`, with the solved proportion (if any)
substituted for the corresponding scalar field. -/
def toResult (self : State K) (prop_a prop_b : Option (PropVal K)) : Result K :=
  { n := self.n
    percent_b := self.percent_b
    mean_diff := self.mean_diff
    sd_a := self.sd_a
    sd_b := self.sd_b
    prop_a := prop_a
    prop_b := prop_b
    sig_level := self.sig_level
    power := self.power
    alternative := self.alternative
    method := "t-test Power Calculation" }

/-- `ab_t2n_prop_class.pwr_test`.  The `n` branch performs a single
bisection with no fallback (unlike the continuous class).  The two-sided
`prop_a` branch runs two fully guarded three-rung ladders; the two-sided
`prop_b` branch runs two three-rung ladders whose final fallback rung
(`ridder` on a bracket anchored at the known proportion) is *not* guarded,
so its failure propagates.  In the `prop_b` combine step of the source the
`None` checks are unreachable: each half either produced a root or raised,
so a successful two-sided `prop_b` solve always stores the pair
`[root_2, root_1]`. -/
def pwr_test (env : Env K) (self : State K) : Except PyErr (Result K) :=
  let keep_a := self.prop_a.map PropVal.scalar
  let keep_b := self.prop_b.map PropVal.scalar
  match self.power with
  | none =>
    match self.n, self.percent_b, self.mean_diff, self.sd_a, self.sd_b,
        self.sig_level with
    | some nv, some pbv, some mdv, some sdav, some sdbv, some sigv =>
      .ok (toResult { self with
          power := some (get_power env.libs nv pbv mdv sdav sdbv sigv
            self.alternative) } keep_a keep_b)
    | _, _, _, _, _, _ => .error .typeError
  | some powv =>
    match self.n with
    | none =>
      match self.percent_b, self.mean_diff, self.sd_a, self.sd_b,
          self.sig_level with
      | some pbv, some mdv, some sdav, some sdbv, some sigv =>
        let min_n := max (5 / pbv) (5 / (1 - pbv))
        let f := fun x => get_n env.libs pbv mdv sdav sdbv sigv powv
          self.alternative x
        match env.bisect f min_n (self.max_sample + 1) with
        | .ok r =>
          .ok (toResult { self with n := some ((⌈r⌉ : ℤ) : K) } keep_a keep_b)
        | .error e => .error e
      | _, _, _, _, _ => .error .typeError
    | some nv =>
      match self.prop_a with
      | none =>
        match self.prop_b, self.percent_b, self.sd_b, self.sig_level with
        | some pbpv, some pcbv, some sdbv, some sigv =>
          let f := fun x => get_prop_a env.libs pbpv nv pcbv sdbv sigv powv
            self.alternative x
          if self.alternative = "less" then
            match env.brentq f pbpv 1 with
            | .ok r => .ok (toResult self (some (.scalar r)) keep_b)
            | .error e => .error e
          else if self.alternative = "two-sided" then
            match try_rungs env.toms748 f [(pbpv, 1), (pbpv, 3/4), (pbpv, 1/2)] with
            | .error e => .error e
            | .ok root_1 =>
              match try_rungs env.toms748 f [(0, pbpv), (1/10, pbpv), (1/5, pbpv)] with
              | .error e => .error e
              | .ok root_2 =>
                .ok (toResult self (combine_roots root_1 root_2) keep_b)
          else
            match env.brentq f 0 pbpv with
            | .ok r => .ok (toResult self (some (.scalar r)) keep_b)
            | .error e => .error e
        | _, _, _, _ => .error .typeError
      | some papv =>
        match self.prop_b with
        | none =>
          match self.percent_b, self.sd_a, self.sig_level with
          | some pcbv, some sdav, some sigv =>
            let f := fun x => get_prop_b env.libs papv nv pcbv sdav sigv powv
              self.alternative x
            if self.alternative = "less" then
              match env.brentq f papv 1 with
              | .ok r => .ok (toResult self keep_a (some (.scalar r)))
              | .error e => .error e
            else if self.alternative = "two-sided" then
              let r1e :=
                match try_rungs env.ridder f
                    [(papv, 1), (papv, 3/4), (papv, 1/2)] with
                | .ok (some r) => Except.ok r
                | .ok none => env.ridder f papv (papv + 1/10)
                | .error e => Except.error e
              match r1e with
              | .error e => .error e
              | .ok root_1 =>
                let r2e :=
                  match try_rungs env.ridder f
                      [(0, papv), (1/10, papv), (1/5, papv)] with
                  | .ok (some r) => Except.ok r
                  | .ok none => env.ridder f (papv - 1/10) papv
                  | .error e => Except.error e
                match r2e with
                | .error e => .error e
                | .ok root_2 =>
                  .ok (toResult self keep_a (some (.pair root_2 root_1)))
            else
              match env.brentq f 0 papv with
              | .ok r => .ok (toResult self keep_a (some (.scalar r)))
              | .error e => .error e
          | _, _, _ => .error .typeError
        | some _ =>
          match self.percent_b with
          | none =>
            match self.mean_diff, self.sd_a, self.sd_b, self.sig_level with
            | some mdv, some sdav, some sdbv, some sigv =>
              let min_percent_b := max (1 / 1000) (10 / nv)
              let search_grid :=
                npArange min_percent_b (1 - min_percent_b) (1 / 10000)
              match search_grid.find? (fun x =>
                  decide (0 < get_percent_b env.libs nv mdv sdav sdbv sigv powv
                    self.alternative x)) with
              | some v =>
                .ok (toResult { self with percent_b := some v } keep_a keep_b)
              | none => .error .valueError
            | _, _, _, _ => .error .typeError
          | some _ =>
            match self.sig_level with
            | none =>
              match self.mean_diff, self.sd_a, self.sd_b, self.percent_b with
              | some mdv, some sdav, some sdbv, some pcbv =>
                let f := fun x => get_sig_level env.libs nv pcbv mdv sdav sdbv
                  powv self.alternative x
                match env.brentq f (1 / 10 ^ 10) (1 - 1 / 10 ^ 10) with
                | .ok r =>
                  .ok (toResult { self with sig_level := some r } keep_a
                    keep_b)
                | .error e => .error e
              | _, _, _, _ => .error .typeError
            | some _ => .error .valueError

end ab_t2n_prop_class

deriving instance DecidableEq for Except

/-- The alternative-hypothesis direction as the specification's enum. -/
inductive SpecAlt where
  | less : SpecAlt
  | greater : SpecAlt
  | twoSided : SpecAlt
deriving DecidableEq

/-- The string the code uses for each spec-level alternative. -/
def SpecAlt.toStr : SpecAlt → String
  | .less => "less"
  | .greater => "greater"
  | .twoSided => "two-sided"

namespace PowerModel

variable {K : Type} [LinearOrderedField K]

/-- Spec-side PowerModel (spec §4.1), transcribed from the
specification's words for the refinement comparison:
`power(df, δ, sigLevel, alternative)` with central-t quantiles. -/
def power (lib : Libs K) (df δ sigLevel : K) : SpecAlt → K
  | .less => lib.nct_cdf (lib.t_ppf sigLevel df) df δ
  | .greater => lib.nct_sf (lib.t_ppf (1 - sigLevel) df) df δ
  | .twoSided =>
    let q := lib.t_ppf (1 - sigLevel / 2) df
    lib.nct_sf q df δ + lib.nct_cdf (-q) df δ

/-- Spec-side Welch–Satterthwaite degrees of freedom (spec §3 derived
quantities), with `nA = n·(1−percentB)` and `nB = n·percentB`. -/
def welch_df (n percentB sdA sdB : K) : K :=
  let nA := n * (1 - percentB)
  let nB := n * percentB
  let V := sdA ^ 2 / nA + sdB ^ 2 / nB
  V ^ 2 / ((sdA ^ 2 / nA) ^ 2 / (nA - 1) + (sdB ^ 2 / nB) ^ 2 / (nB - 1))

/-- Spec-side noncentrality `δ = meanDiff / sqrt(V)` (spec §3). -/
def delta (lib : Libs K) (n percentB meanDiff sdA sdB : K) : K :=
  meanDiff / lib.sqrt (sdA ^ 2 / (n * (1 - percentB)) + sdB ^ 2 / (n * percentB))

end PowerModel

section Helpers

variable {K : Type} [LinearOrderedField K] [FloorRing K]

/-- A rung ladder whose finder never fails with `TypeError` always
returns (it never propagates an exception). -/
theorem try_rungs_isOk (rf : (K → K) → K → K → Except PyErr K) (f : K → K)
    (h : ∀ a b, rf f a b ≠ .error .typeError) :
    ∀ L : List (K × K), ∃ o, ab_t2n_prop_class.try_rungs rf f L = .ok o := by
  intro L
  induction L with
  | nil => exact ⟨none, rfl⟩
  | cons p rest ih =>
    obtain ⟨o, ho⟩ := ih
    cases hp : rf f p.1 p.2 with
    | ok r => exact ⟨some r, by simp [ab_t2n_prop_class.try_rungs, hp]⟩
    | error e =>
      cases e with
      | valueError => exact ⟨o, by simp [ab_t2n_prop_class.try_rungs, hp, ho]⟩
      | typeError => exact absurd hp (h p.1 p.2)

/-- A root returned by a rung ladder comes from one of its brackets. -/
theorem try_rungs_ok_some (rf : (K → K) → K → K → Except PyErr K) (f : K → K)
    (L : List (K × K)) (r : K)
    (h : ab_t2n_prop_class.try_rungs rf f L = .ok (some r)) :
    ∃ p ∈ L, rf f p.1 p.2 = .ok r := by
  induction L with
  | nil => simp [ab_t2n_prop_class.try_rungs] at h
  | cons p rest ih =>
    rw [ab_t2n_prop_class.try_rungs] at h
    cases hp : rf f p.1 p.2 with
    | ok r' =>
      rw [hp] at h
      simp only [Except.ok.injEq, Option.some.injEq] at h
      exact ⟨p, List.mem_cons_self p rest, by rw [hp, h]⟩
    | error e =>
      cases e with
      | valueError =>
        rw [hp] at h
        obtain ⟨q, hq, hq2⟩ := ih h
        exact ⟨q, List.mem_cons_of_mem p hq, hq2⟩
      | typeError =>
        rw [hp] at h
        cases h

/-- The `numpy.arange` grid is sorted when the step is nonnegative. -/
theorem npArange_sorted (start stop step : K) (hstep : 0 ≤ step) :
    (npArange start stop step).Sorted (· ≤ ·) := by
  show List.Pairwise _ _
  unfold npArange
  refine List.Pairwise.map (fun k : ℕ => start + step * (k : K)) ?_
    (List.pairwise_lt_range _)
  intro i j hij
  have hij2 : (i : K) ≤ (j : K) := by exact_mod_cast hij.le
  have := mul_le_mul_of_nonneg_left hij2 hstep
  show start + step * (i : K) ≤ start + step * (j : K)
  linarith

/-- `List.find?` on a sorted list returns the least element satisfying
the predicate. -/
theorem find?_min_sorted (l : List K) (p : K → Bool) (x : K)
    (hs : l.Sorted (· ≤ ·)) (h : l.find? p = some x) :
    ∀ y ∈ l, p y = true → x ≤ y := by
  induction l with
  | nil => simp at h
  | cons a t ih =>
    rw [List.sorted_cons] at hs
    by_cases hpa : p a = true
    · rw [List.find?_cons_of_pos _ hpa] at h
      cases h
      intro y hy _
      rcases List.mem_cons.mp hy with rfl | hyt
      · exact le_refl _
      · exact hs.1 y hyt
    · rw [List.find?_cons_of_neg _ hpa] at h
      intro y hy hpy
      rcases List.mem_cons.mp hy with rfl | hyt
      · exact absurd hpy hpa
      · exact ih hs.2 h y hyt hpy

end Helpers

/-- A concrete rational library instantiation used to evaluate the
development on closed inputs: the distribution functions are simple
closed forms chosen only so that the abstract side conditions of the
theorems below hold at them. -/
def qlib : Libs ℚ :=
  { sqrt := fun _ => 0
    nct_cdf := fun _ _ _ => 1/2
    nct_sf := fun _ _ _ => 1/2
    t_ppf := fun p _ => p - 1/2
    t_isf := fun p _ => 1/2 - p }

/-- C1: every root-finding residual helper computes exactly the power
formula with the trial value substituted for its field, minus the target
power — `_get_n`, `_get_percent_b`, `_get_mean_diff`, `_get_sig_level`
against `_get_power` of the continuous class, and `_get_prop_a`,
`_get_prop_b` (which re-derive `mean_diff` and the trial group's standard
deviation from the trial proportion) against the proportion class's
`_get_power` with the substituted record (for the casefolded alternative
strings that the stored records carry). -/
theorem claim1_residuals_equal_power_minus_target {K : Type}
    [LinearOrderedField K] [FloorRing K] :
    (∀ (lib : Libs K) (pb md sdA sdB sig pow x : K) (alt : String),
      ab_t2n_class.get_n lib pb md sdA sdB sig pow alt x
        = ab_t2n_class.get_power lib x pb md sdA sdB sig alt - pow) ∧
    (∀ (lib : Libs K) (n md sdA sdB sig pow x : K) (alt : String),
      ab_t2n_class.get_percent_b lib n md sdA sdB sig pow alt x
        = ab_t2n_class.get_power lib n x md sdA sdB sig alt - pow) ∧
    (∀ (lib : Libs K) (n pb sdA sdB sig pow x : K) (alt : String),
      ab_t2n_class.get_mean_diff lib n pb sdA sdB sig pow alt x
        = ab_t2n_class.get_power lib n pb x sdA sdB sig alt - pow) ∧
    (∀ (lib : Libs K) (n pb md sdA sdB pow x : K) (alt : String),
      ab_t2n_class.get_sig_level lib n pb md sdA sdB pow alt x
        = ab_t2n_class.get_power lib n pb md sdA sdB x alt - pow) ∧
    (∀ (lib : Libs K) (pbp n pcb sdB sig pow x : K) (alt : String),
      pyCasefold alt = alt →
      ab_t2n_prop_class.get_prop_a lib pbp n pcb sdB sig pow alt x
        = ab_t2n_prop_class.get_power lib n pcb
            (if alt = "two-sided" then |pbp - x| else pbp - x)
            (lib.sqrt (x * (1 - x))) sdB sig alt - pow) ∧
    (∀ (lib : Libs K) (pap n pcb sdA sig pow x : K) (alt : String),
      pyCasefold alt = alt →
      ab_t2n_prop_class.get_prop_b lib pap n pcb sdA sig pow alt x
        = ab_t2n_prop_class.get_power lib n pcb
            (if alt = "two-sided" then |x - pap| else x - pap)
            sdA (lib.sqrt (x * (1 - x))) sig alt - pow) := by
  refine ⟨?_, ?_, ?_, ?_, ?_, ?_⟩
  · intro lib pb md sdA sdB sig pow x alt
    simp only [ab_t2n_class.get_n, ab_t2n_class.get_power]
    split_ifs <;> ring
  · intro lib n md sdA sdB sig pow x alt
    simp only [ab_t2n_class.get_percent_b, ab_t2n_class.get_power]
    split_ifs <;> ring
  · intro lib n pb sdA sdB sig pow x alt
    simp only [ab_t2n_class.get_mean_diff, ab_t2n_class.get_power]
    split_ifs <;> ring
  · intro lib n pb md sdA sdB pow x alt
    simp only [ab_t2n_class.get_sig_level, ab_t2n_class.get_power]
    split_ifs <;> ring
  · intro lib pbp n pcb sdB sig pow x alt halt
    simp only [ab_t2n_prop_class.get_prop_a, ab_t2n_prop_class.get_power,
      ab_t2n_class.get_power, halt]
    split_ifs <;> simp_all [abs_abs] <;> ring
  · intro lib pap n pcb sdA sig pow x alt halt
    simp only [ab_t2n_prop_class.get_prop_b, ab_t2n_prop_class.get_power,
      ab_t2n_class.get_power, halt]
    split_ifs <;> simp_all [abs_abs] <;> ring

/-- Witness for C1: the `_get_prop_a` clause applied at a concrete
two-sided instance (the hypothesis that the stored alternative is
casefolded holds by computation). -/
theorem claim1_witness :
    ab_t2n_prop_class.get_prop_a qlib (2/5) 100 (1/2) (3/10) (1/20) (4/5)
        "two-sided" (1/5)
      = ab_t2n_prop_class.get_power qlib 100 (1/2)
          (if "two-sided" = "two-sided" then |(2/5 : ℚ) - 1/5| else 2/5 - 1/5)
          (qlib.sqrt ((1/5) * (1 - 1/5))) (3/10) (1/20) "two-sided" - 4/5 :=
  claim1_residuals_equal_power_minus_target.2.2.2.2.1 qlib (2/5) 100 (1/2)
    (3/10) (1/20) (4/5) (1/5) "two-sided" (by decide)

/-- C2: under the standard facts about the distribution library (cdf in
`[0,1]` and monotone, sf = 1 − cdf, isf p = ppf (1−p), upper-half
quantiles nonnegative), the power computation returns a probability in
`[0,1]` and is exactly the spec's PowerModel formula evaluated at the
Welch–Satterthwaite degrees of freedom and noncentrality
`δ = meanDiff / sqrt(sdA²/nA + sdB²/nB)`, for each alternative. -/
theorem claim2_power_in_unit_interval_and_formula {K : Type}
    [LinearOrderedField K] [FloorRing K] (lib : Libs K)
    (n pb md sdA sdB sig : K) (salt : SpecAlt)
    (hsf : ∀ q d c, lib.nct_sf q d c = 1 - lib.nct_cdf q d c)
    (hc0 : ∀ q d c, 0 ≤ lib.nct_cdf q d c)
    (hc1 : ∀ q d c, lib.nct_cdf q d c ≤ 1)
    (hmono : ∀ d c, Monotone (fun q => lib.nct_cdf q d c))
    (hisf : ∀ p d, lib.t_isf p d = lib.t_ppf (1 - p) d)
    (hq : ∀ p d, p ≤ 1 / 2 → 0 ≤ lib.t_ppf (1 - p) d)
    (hsig0 : 0 < sig) (hsig1 : sig < 1)
    (hnA : 1 < n * (1 - pb)) (hnB : 1 < n * pb) :
    0 ≤ ab_t2n_class.get_power lib n pb md sdA sdB sig salt.toStr ∧
    ab_t2n_class.get_power lib n pb md sdA sdB sig salt.toStr ≤ 1 ∧
    ab_t2n_class.get_power lib n pb md sdA sdB sig salt.toStr
      = PowerModel.power lib (PowerModel.welch_df n pb sdA sdB)
          (PowerModel.delta lib n pb md sdA sdB) sig salt := by
  have hsub : n - n * pb = n * (1 - pb) := by ring
  cases salt with
  | less =>
    have hform : ab_t2n_class.get_power lib n pb md sdA sdB sig
        SpecAlt.less.toStr
        = PowerModel.power lib (PowerModel.welch_df n pb sdA sdB)
            (PowerModel.delta lib n pb md sdA sdB) sig SpecAlt.less := by
      simp only [ab_t2n_class.get_power, PowerModel.power, PowerModel.welch_df,
        PowerModel.delta, SpecAlt.toStr, hsub]
      norm_num
    exact ⟨by rw [hform]; exact hc0 _ _ _,
      by rw [hform]; exact hc1 _ _ _, hform⟩
  | greater =>
    have hform : ab_t2n_class.get_power lib n pb md sdA sdB sig
        SpecAlt.greater.toStr
        = PowerModel.power lib (PowerModel.welch_df n pb sdA sdB)
            (PowerModel.delta lib n pb md sdA sdB) sig SpecAlt.greater := by
      simp only [ab_t2n_class.get_power, PowerModel.power, PowerModel.welch_df,
        PowerModel.delta, SpecAlt.toStr, hsub, hisf]
      rw [if_neg (by decide), if_neg (by decide)]
    refine ⟨?_, ?_, hform⟩
    · rw [hform]
      simp only [PowerModel.power, hsf]
      have := hc1 (lib.t_ppf (1 - sig) (PowerModel.welch_df n pb sdA sdB))
        (PowerModel.welch_df n pb sdA sdB)
        (PowerModel.delta lib n pb md sdA sdB)
      linarith
    · rw [hform]
      simp only [PowerModel.power, hsf]
      have := hc0 (lib.t_ppf (1 - sig) (PowerModel.welch_df n pb sdA sdB))
        (PowerModel.welch_df n pb sdA sdB)
        (PowerModel.delta lib n pb md sdA sdB)
      linarith
  | twoSided =>
    have hform : ab_t2n_class.get_power lib n pb md sdA sdB sig
        SpecAlt.twoSided.toStr
        = PowerModel.power lib (PowerModel.welch_df n pb sdA sdB)
            (PowerModel.delta lib n pb md sdA sdB) sig SpecAlt.twoSided := by
      simp only [ab_t2n_class.get_power, PowerModel.power, PowerModel.welch_df,
        PowerModel.delta, SpecAlt.toStr, hsub, hisf]
      rw [if_neg (by decide)]
      simp
    set d := PowerModel.welch_df n pb sdA sdB with hd
    set δ := PowerModel.delta lib n pb md sdA sdB with hδ
    have hq0 : 0 ≤ lib.t_ppf (1 - sig / 2) d := hq (sig / 2) d (by linarith)
    have hmle : lib.nct_cdf (-lib.t_ppf (1 - sig / 2) d) d δ
        ≤ lib.nct_cdf (lib.t_ppf (1 - sig / 2) d) d δ :=
      hmono d δ (by linarith)
    have h1 := hc0 (lib.t_ppf (1 - sig / 2) d) d δ
    have h2 := hc1 (lib.t_ppf (1 - sig / 2) d) d δ
    have h3 := hc0 (-lib.t_ppf (1 - sig / 2) d) d δ
    have h4 := hc1 (-lib.t_ppf (1 - sig / 2) d) d δ
    refine ⟨?_, ?_, hform⟩
    · rw [hform]
      simp only [PowerModel.power, hsf]
      linarith
    · rw [hform]
      simp only [PowerModel.power, hsf]
      linarith

/-- Witness for C2: the concrete rational library satisfies every side
condition, so the theorem applies at a concrete greater-tail input. -/
theorem claim2_witness :
    0 ≤ ab_t2n_class.get_power qlib 100 (1/2) 1 1 1 (1/20)
        SpecAlt.greater.toStr ∧
    ab_t2n_class.get_power qlib 100 (1/2) 1 1 1 (1/20)
        SpecAlt.greater.toStr ≤ 1 ∧
    ab_t2n_class.get_power qlib 100 (1/2) 1 1 1 (1/20) SpecAlt.greater.toStr
      = PowerModel.power qlib (PowerModel.welch_df 100 (1/2) 1 1)
          (PowerModel.delta qlib 100 (1/2) 1 1 1) (1/20) SpecAlt.greater :=
  claim2_power_in_unit_interval_and_formula qlib 100 (1/2) 1 1 1 (1/20)
    SpecAlt.greater
    (fun _ _ _ => by norm_num [qlib])
    (fun _ _ _ => by norm_num [qlib])
    (fun _ _ _ => by norm_num [qlib])
    (fun _ _ => monotone_const)
    (fun p _ => by simp [qlib]; ring)
    (fun p _ hp => by simp only [qlib]; linarith)
    (by norm_num) (by norm_num) (by norm_num) (by norm_num)

/-- C8: at construction the proportion class derives
`sd_x = sqrt(prop_x (1 - prop_x))` and `mean_diff = |prop_b - prop_a|`
exactly when the casefolded alternative is two-sided (signed otherwise),
and the continuous class stores a supplied `mean_diff` as its absolute
value exactly when the casefolded alternative is two-sided. -/
theorem claim8_init_derived_quantities {K : Type}
    [LinearOrderedField K] [FloorRing K] (lib : Libs K) (a b md : K)
    (n pb sig pow cn cpb csig cpow : Option K) (sdA sdB : K)
    (alt : String) (maxS : K) :
    ((ab_t2n_prop_class.init lib (some a) (some b) n pb sig pow alt maxS).sd_a
      = some (lib.sqrt (a * (1 - a)))) ∧
    ((ab_t2n_prop_class.init lib (some a) (some b) n pb sig pow alt maxS).sd_b
      = some (lib.sqrt (b * (1 - b)))) ∧
    (pyCasefold alt = "two-sided" →
      (ab_t2n_prop_class.init lib (some a) (some b) n pb sig pow alt
          maxS).mean_diff = some |b - a|) ∧
    (pyCasefold alt ≠ "two-sided" →
      (ab_t2n_prop_class.init lib (some a) (some b) n pb sig pow alt
          maxS).mean_diff = some (b - a)) ∧
    (pyCasefold alt = "two-sided" →
      (ab_t2n_class.init cn cpb (some md) sdA sdB csig cpow alt
          maxS).mean_diff = some |md|) ∧
    (pyCasefold alt ≠ "two-sided" →
      (ab_t2n_class.init cn cpb (some md) sdA sdB csig cpow alt
          maxS).mean_diff = some md) := by
  refine ⟨rfl, rfl, ?_, ?_, ?_, ?_⟩ <;> intro h <;>
    simp [ab_t2n_prop_class.init, ab_t2n_class.init, h]

/-- Witness for C8: concrete instances at the alternatives `"Two-Sided"`
(casefolding to `"two-sided"`) and `"greater"`. -/
theorem claim8_witness :
    ((ab_t2n_prop_class.init qlib (some (1/5)) (some (2/5)) none none none
        none "Two-Sided" 100).mean_diff = some |(2/5 : ℚ) - 1/5|) ∧
    ((ab_t2n_class.init none none (some (-(3/10))) 1 1 none none "greater"
        100).mean_diff = some (-(3/10) : ℚ)) :=
  ⟨(claim8_init_derived_quantities qlib (1/5) (2/5) (-(3/10)) none none none
      none none none none none 1 1 "Two-Sided" 100).2.2.1 (by decide),
   (claim8_init_derived_quantities qlib (1/5) (2/5) (-(3/10)) none none none
      none none none none none 1 1 "greater" 100).2.2.2.2.2 (by decide)⟩

/-- C10: the alternative string is casefolded at construction and never
validated; whenever its casefold is neither `"less"` nor `"two-sided"`,
the power computation and every residual helper evaluate the greater-tail
formula (they agree with the same call at `"greater"`). -/
theorem claim10_unrecognized_alternative_is_greater {K : Type}
    [LinearOrderedField K] [FloorRing K] (lib : Libs K)
    (n pb md sdA sdB sig pow x maxS pap pbp pcb : K) (alt : String)
    (h1 : pyCasefold alt ≠ "less") (h2 : pyCasefold alt ≠ "two-sided") :
    ((ab_t2n_class.init (some n) (some pb) (some md) sdA sdB (some sig)
        (some pow) alt maxS).alternative = pyCasefold alt) ∧
    (ab_t2n_class.get_power lib n pb md sdA sdB sig (pyCasefold alt)
      = ab_t2n_class.get_power lib n pb md sdA sdB sig "greater") ∧
    (ab_t2n_class.get_n lib pb md sdA sdB sig pow (pyCasefold alt) x
      = ab_t2n_class.get_n lib pb md sdA sdB sig pow "greater" x) ∧
    (ab_t2n_class.get_percent_b lib n md sdA sdB sig pow (pyCasefold alt) x
      = ab_t2n_class.get_percent_b lib n md sdA sdB sig pow "greater" x) ∧
    (ab_t2n_class.get_mean_diff lib n pb sdA sdB sig pow (pyCasefold alt) x
      = ab_t2n_class.get_mean_diff lib n pb sdA sdB sig pow "greater" x) ∧
    (ab_t2n_class.get_sig_level lib n pb md sdA sdB pow (pyCasefold alt) x
      = ab_t2n_class.get_sig_level lib n pb md sdA sdB pow "greater" x) ∧
    (ab_t2n_prop_class.get_prop_a lib pbp n pcb sdB sig pow (pyCasefold alt) x
      = ab_t2n_prop_class.get_prop_a lib pbp n pcb sdB sig pow "greater" x) ∧
    (ab_t2n_prop_class.get_prop_b lib pap n pcb sdA sig pow (pyCasefold alt) x
      = ab_t2n_prop_class.get_prop_b lib pap n pcb sdA sig pow "greater" x) := by
  refine ⟨rfl, ?_, ?_, ?_, ?_, ?_, ?_, ?_⟩ <;>
    simp only [ab_t2n_class.get_power, ab_t2n_class.get_n,
      ab_t2n_class.get_percent_b, ab_t2n_class.get_mean_diff,
      ab_t2n_class.get_sig_level, ab_t2n_prop_class.get_prop_a,
      ab_t2n_prop_class.get_prop_b, if_neg h1, if_neg h2] <;>
    simp only [if_neg (show ¬("greater" : String) = "less" by decide),
      if_neg (show ¬("greater" : String) = "two-sided" by decide)]

/-- Witness for C10: the misspelled alternative `"grater"` is accepted
and evaluates the greater tail. -/
theorem claim10_witness :
    (ab_t2n_class.get_power qlib 100 (1/2) 1 1 1 (1/20)
        (pyCasefold "grater")
      = ab_t2n_class.get_power qlib 100 (1/2) 1 1 1 (1/20) "greater") :=
  (claim10_unrecognized_alternative_is_greater qlib 100 (1/2) 1 1 1 (1/20)
    (4/5) 16 100 (1/5) (2/5) (1/2) "grater" (by decide) (by decide)).2.1

/-- A concrete environment over `ℚ` pairing `qlib` with root finders that
always report a bracket failure; used to evaluate solver paths that do
not consult the finders (or that exercise the failure paths). -/
def qenv : Env ℚ :=
  { libs := qlib
    bisect := fun _ _ _ => .error .valueError
    brentq := fun _ _ _ => .error .valueError
    ridder := fun _ _ _ => .error .valueError
    toms748 := fun _ _ _ => .error .valueError }

/-- C6: with `percent_b` unknown, both solvers scan the arithmetic grid
`minPercentB + k·0.0001` over `(minPercentB, 1 − minPercentB)` with
`minPercentB = max(0.001, 10/n)` and return the smallest grid value whose
power-minus-target residual is positive; when no grid point has positive
residual the solve fails with a `ValueError` instead of returning. -/
theorem claim6_percent_b_grid_scan {K : Type}
    [LinearOrderedField K] [FloorRing K] (env : Env K)
    (nv mdv sdav sdbv sigv powv maxS papv pbpv pmdv psdav psdbv : K)
    (alt : String) :
    (∀ res v,
      ab_t2n_class.pwr_test env ⟨some nv, none, some mdv, sdav, sdbv,
          some sigv, some powv, alt, maxS⟩ = .ok res →
      res.percent_b = some v →
      v ∈ npArange (max (1/1000) (10/nv)) (1 - max (1/1000) (10/nv))
          (1/10000) ∧
      0 < ab_t2n_class.get_percent_b env.libs nv mdv sdav sdbv sigv powv
          alt v ∧
      ∀ y ∈ npArange (max (1/1000) (10/nv)) (1 - max (1/1000) (10/nv))
          (1/10000),
        0 < ab_t2n_class.get_percent_b env.libs nv mdv sdav sdbv sigv powv
          alt y → v ≤ y) ∧
    ((∀ y ∈ npArange (max (1/1000) (10/nv)) (1 - max (1/1000) (10/nv))
        (1/10000),
      ¬ 0 < ab_t2n_class.get_percent_b env.libs nv mdv sdav sdbv sigv powv
          alt y) →
      ab_t2n_class.pwr_test env ⟨some nv, none, some mdv, sdav, sdbv,
          some sigv, some powv, alt, maxS⟩ = .error .valueError) ∧
    (∀ res v,
      ab_t2n_prop_class.pwr_test env ⟨some papv, some pbpv, some nv, none,
          some sigv, some powv, alt, maxS, some pmdv, some psdav,
          some psdbv⟩ = .ok res →
      res.percent_b = some v →
      v ∈ npArange (max (1/1000) (10/nv)) (1 - max (1/1000) (10/nv))
          (1/10000) ∧
      0 < ab_t2n_prop_class.get_percent_b env.libs nv pmdv psdav psdbv sigv
          powv alt v ∧
      ∀ y ∈ npArange (max (1/1000) (10/nv)) (1 - max (1/1000) (10/nv))
          (1/10000),
        0 < ab_t2n_prop_class.get_percent_b env.libs nv pmdv psdav psdbv
          sigv powv alt y → v ≤ y) ∧
    ((∀ y ∈ npArange (max (1/1000) (10/nv)) (1 - max (1/1000) (10/nv))
        (1/10000),
      ¬ 0 < ab_t2n_prop_class.get_percent_b env.libs nv pmdv psdav psdbv
          sigv powv alt y) →
      ab_t2n_prop_class.pwr_test env ⟨some papv, some pbpv, some nv, none,
          some sigv, some powv, alt, maxS, some pmdv, some psdav,
          some psdbv⟩ = .error .valueError) := by
  have hsorted : (npArange (max (1/1000) (10/nv))
      (1 - max (1/1000) (10/nv)) ((1 : K)/10000)).Sorted (· ≤ ·) :=
    npArange_sorted _ _ _ (by positivity)
  refine ⟨?_, ?_, ?_, ?_⟩
  · intro res v hok hv
    simp only [ab_t2n_class.pwr_test] at hok
    cases hfind : (npArange (max (1/1000) (10/nv))
        (1 - max (1/1000) (10/nv)) ((1 : K)/10000)).find?
        (fun x => decide (0 < ab_t2n_class.get_percent_b env.libs nv mdv
          sdav sdbv sigv powv alt x)) with
    | none => rw [hfind] at hok; cases hok
    | some w =>
      rw [hfind] at hok
      cases hok
      simp only [ab_t2n_class.toResult, Option.some.injEq] at hv
      subst hv
      have hp := List.find?_some hfind
      refine ⟨List.mem_of_find?_eq_some hfind, by simpa using hp, ?_⟩
      intro y hy hpy
      exact find?_min_sorted _ _ _ hsorted hfind y hy (decide_eq_true hpy)
  · intro hnone
    have hfind : (npArange (max (1/1000) (10/nv))
        (1 - max (1/1000) (10/nv)) ((1 : K)/10000)).find?
        (fun x => decide (0 < ab_t2n_class.get_percent_b env.libs nv mdv
          sdav sdbv sigv powv alt x)) = none := by
      rw [List.find?_eq_none]
      intro x hx
      simpa using hnone x hx
    simp only [ab_t2n_class.pwr_test, hfind]
  · intro res v hok hv
    simp only [ab_t2n_prop_class.pwr_test] at hok
    cases hfind : (npArange (max (1/1000) (10/nv))
        (1 - max (1/1000) (10/nv)) ((1 : K)/10000)).find?
        (fun x => decide (0 < ab_t2n_prop_class.get_percent_b env.libs nv
          pmdv psdav psdbv sigv powv alt x)) with
    | none => rw [hfind] at hok; cases hok
    | some w =>
      rw [hfind] at hok
      cases hok
      simp only [ab_t2n_prop_class.toResult, Option.some.injEq] at hv
      subst hv
      have hp := List.find?_some hfind
      refine ⟨List.mem_of_find?_eq_some hfind, by simpa using hp, ?_⟩
      intro y hy hpy
      exact find?_min_sorted _ _ _ hsorted hfind y hy (decide_eq_true hpy)
  · intro hnone
    have hfind : (npArange (max (1/1000) (10/nv))
        (1 - max (1/1000) (10/nv)) ((1 : K)/10000)).find?
        (fun x => decide (0 < ab_t2n_prop_class.get_percent_b env.libs nv
          pmdv psdav psdbv sigv powv alt x)) = none := by
      rw [List.find?_eq_none]
      intro x hx
      simpa using hnone x hx
    simp only [ab_t2n_prop_class.pwr_test, hfind]

/-- Witness for C6: with a residual that is negative on the whole grid
the continuous `percent_b` solve fails with `ValueError`. -/
theorem claim6_witness :
    ab_t2n_class.pwr_test qenv ⟨some 21, none, some (3/10), 1, 1,
        some (1/20), some 1, "greater", 100⟩ = .error .valueError :=
  (claim6_percent_b_grid_scan qenv 21 (3/10) 1 1 (1/20) 1 100 (1/5) (2/5)
      (1/5) 1 1 "greater").2.1 (by
    intro y hy
    simp only [ab_t2n_class.get_percent_b, qenv, qlib]
    rw [if_neg (by decide), if_neg (by decide)]
    norm_num)

/-- C3 (amended): for a two-sided solve of an unknown `prop_a`, whose two
three-rung ladders are fully guarded, exhausting a ladder never raises —
the solve always returns, the solved field is the combine of the two
ladder outcomes (ascending pair `[lowerRoot, upperRoot]` when both halves
found a root, the scalar when exactly one did, null when neither did),
and any two roots are ascending because every upper bracket has left
endpoint `prop_b` and every lower bracket has right endpoint `prop_b`.
(For the unknown-`prop_b` mirror case the final ladder rung is unguarded
in the source, so there exhaustion raises; see the counterexample.) -/
theorem claim3_prop_a_two_sided_never_raises {K : Type}
    [LinearOrderedField K] [FloorRing K] (env : Env K)
    (pbpv nv pcbv sdbv sigv powv maxS : K) (mdf sdaf : Option K)
    (hnTE : ∀ (f : K → K) a b, env.toms748 f a b ≠ .error .typeError)
    (hbr : ∀ (f : K → K) a b r, env.toms748 f a b = .ok r → a ≤ r ∧ r ≤ b) :
    (∀ e, ab_t2n_prop_class.pwr_test env ⟨none, some pbpv, some nv,
        some pcbv, some sigv, some powv, "two-sided", maxS, mdf, sdaf,
        some sdbv⟩ ≠ .error e) ∧
    (∀ o1 o2,
      ab_t2n_prop_class.try_rungs env.toms748
        (fun x => ab_t2n_prop_class.get_prop_a env.libs pbpv nv pcbv sdbv
          sigv powv "two-sided" x)
        [(pbpv, 1), (pbpv, 3/4), (pbpv, 1/2)] = .ok o1 →
      ab_t2n_prop_class.try_rungs env.toms748
        (fun x => ab_t2n_prop_class.get_prop_a env.libs pbpv nv pcbv sdbv
          sigv powv "two-sided" x)
        [(0, pbpv), (1/10, pbpv), (1/5, pbpv)] = .ok o2 →
      ab_t2n_prop_class.pwr_test env ⟨none, some pbpv, some nv, some pcbv,
          some sigv, some powv, "two-sided", maxS, mdf, sdaf, some sdbv⟩
        = .ok (ab_t2n_prop_class.toResult ⟨none, some pbpv, some nv,
            some pcbv, some sigv, some powv, "two-sided", maxS, mdf, sdaf,
            some sdbv⟩ (ab_t2n_prop_class.combine_roots o1 o2)
            (some (.scalar pbpv)))) ∧
    (∀ u l,
      ab_t2n_prop_class.try_rungs env.toms748
        (fun x => ab_t2n_prop_class.get_prop_a env.libs pbpv nv pcbv sdbv
          sigv powv "two-sided" x)
        [(pbpv, 1), (pbpv, 3/4), (pbpv, 1/2)] = .ok (some u) →
      ab_t2n_prop_class.try_rungs env.toms748
        (fun x => ab_t2n_prop_class.get_prop_a env.libs pbpv nv pcbv sdbv
          sigv powv "two-sided" x)
        [(0, pbpv), (1/10, pbpv), (1/5, pbpv)] = .ok (some l) →
      l ≤ u) := by
  have hmain : ∀ o1 o2,
      ab_t2n_prop_class.try_rungs env.toms748
        (fun x => ab_t2n_prop_class.get_prop_a env.libs pbpv nv pcbv sdbv
          sigv powv "two-sided" x)
        [(pbpv, 1), (pbpv, 3/4), (pbpv, 1/2)] = .ok o1 →
      ab_t2n_prop_class.try_rungs env.toms748
        (fun x => ab_t2n_prop_class.get_prop_a env.libs pbpv nv pcbv sdbv
          sigv powv "two-sided" x)
        [(0, pbpv), (1/10, pbpv), (1/5, pbpv)] = .ok o2 →
      ab_t2n_prop_class.pwr_test env ⟨none, some pbpv, some nv, some pcbv,
          some sigv, some powv, "two-sided", maxS, mdf, sdaf, some sdbv⟩
        = .ok (ab_t2n_prop_class.toResult ⟨none, some pbpv, some nv,
            some pcbv, some sigv, some powv, "two-sided", maxS, mdf, sdaf,
            some sdbv⟩ (ab_t2n_prop_class.combine_roots o1 o2)
            (some (.scalar pbpv))) := by
    intro o1 o2 ho1 ho2
    simp only [ab_t2n_prop_class.pwr_test]
    rw [if_neg (show ¬("two-sided" : String) = "less" by decide)]
    rw [ho1, ho2]
    simp
  refine ⟨?_, hmain, ?_⟩
  · intro e hcontra
    obtain ⟨o1, ho1⟩ := try_rungs_isOk env.toms748 _
      (fun a b => hnTE _ a b) [(pbpv, 1), (pbpv, 3/4), (pbpv, 1/2)]
    obtain ⟨o2, ho2⟩ := try_rungs_isOk env.toms748 _
      (fun a b => hnTE _ a b) [(0, pbpv), (1/10, pbpv), (1/5, pbpv)]
    rw [hmain o1 o2 ho1 ho2] at hcontra
    cases hcontra
  · intro u l hu hl
    obtain ⟨p, hp, hpok⟩ := try_rungs_ok_some _ _ _ _ hu
    obtain ⟨q, hq, hqok⟩ := try_rungs_ok_some _ _ _ _ hl
    simp only [List.mem_cons, List.not_mem_nil, or_false] at hp hq
    have hu1 : pbpv ≤ u := by
      rcases hp with h | h | h <;>
        (rw [h] at hpok; exact (hbr _ _ _ _ hpok).1)
    have hl1 : l ≤ pbpv := by
      rcases hq with h | h | h <;>
        (rw [h] at hqok; exact (hbr _ _ _ _ hqok).2)
    exact le_trans hl1 hu1

/-- An environment over `ℚ` whose `toms748` returns the left endpoint of
any well-ordered bracket and reports a `ValueError` otherwise (the other
finders always fail). -/
def env3 : Env ℚ :=
  { libs := qlib
    bisect := fun _ _ _ => .error .valueError
    brentq := fun _ _ _ => .error .valueError
    ridder := fun _ _ _ => .error .valueError
    toms748 := fun _ a b => if a ≤ b then .ok a else .error .valueError }

/-- Counterexample to C3 as stated: for the two-sided solve of an unknown
`prop_b`, exhausting the (guarded part of the) ladder does raise — with a
finder that fails on every bracket the solve ends in a `ValueError`
instead of a null result, because the final ladder rung is unguarded. -/
theorem claim3_counterexample :
    ab_t2n_prop_class.pwr_test qenv
      (ab_t2n_prop_class.init qlib (some (2/5)) none (some 100) (some (1/2))
        (some (1/20)) (some (4/5)) "two-sided" 100)
      = .error .valueError := by
  decide

/-- Witness for the amended C3: with the bracket-respecting finder the
two-sided `prop_a` solve returns the combine of the two ladder roots. -/
theorem claim3_witness :
    ab_t2n_prop_class.pwr_test env3 ⟨none, some (2/5), some 100, some (1/2),
        some (1/20), some (4/5), "two-sided", 100, none, none, some (1/2)⟩
      = .ok (ab_t2n_prop_class.toResult ⟨none, some (2/5), some 100,
          some (1/2), some (1/20), some (4/5), "two-sided", 100, none, none,
          some (1/2)⟩
          (ab_t2n_prop_class.combine_roots (some (2/5)) (some 0))
          (some (.scalar (2/5)))) :=
  (claim3_prop_a_two_sided_never_raises env3 (2/5) 100 (1/2) (1/2) (1/20)
      (4/5) 100 none none
      (by
        intro f a b h
        simp only [env3] at h
        split at h <;> simp_all)
      (by
        intro f a b r h
        simp only [env3] at h
        split at h
        · cases h; exact ⟨le_refl _, by assumption⟩
        · cases h)).2.1 (some (2/5)) (some 0)
    (by
      simp only [ab_t2n_prop_class.try_rungs, env3]
      norm_num)
    (by
      simp only [ab_t2n_prop_class.try_rungs, env3]
      norm_num)

/-- C4 (amended): with `n` unknown, the continuous solver bisects over
`[minN, maxSample+1]` with `minN = max(5/percentB, 5/(1−percentB))` and,
when that bracket fails with a `ValueError`, retries exactly once over
`[minN, maxSample/10+1]` before surfacing the error; on success the
result is the ceiling of the found root.  The proportion solver's `n`
branch performs a single bisection over the same bracket with *no*
fallback: a bracket failure surfaces immediately. -/
theorem claim4_n_retry_continuous_only {K : Type}
    [LinearOrderedField K] [FloorRing K] (env : Env K)
    (pbv mdv sdav sdbv sigv powv maxS papv pbpv r : K) (alt : String)
    (e : PyErr) :
    (env.bisect (fun x => ab_t2n_class.get_n env.libs pbv mdv sdav sdbv
        sigv powv alt x) (max (5/pbv) (5/(1 - pbv))) (maxS + 1) = .ok r →
      ab_t2n_class.pwr_test env ⟨none, some pbv, some mdv, sdav, sdbv,
          some sigv, some powv, alt, maxS⟩
        = .ok (ab_t2n_class.toResult ⟨some ((⌈r⌉ : ℤ) : K), some pbv,
            some mdv, sdav, sdbv, some sigv, some powv, alt, maxS⟩)) ∧
    (env.bisect (fun x => ab_t2n_class.get_n env.libs pbv mdv sdav sdbv
        sigv powv alt x) (max (5/pbv) (5/(1 - pbv))) (maxS + 1)
        = .error .valueError →
      env.bisect (fun x => ab_t2n_class.get_n env.libs pbv mdv sdav sdbv
        sigv powv alt x) (max (5/pbv) (5/(1 - pbv))) (maxS/10 + 1)
        = .ok r →
      ab_t2n_class.pwr_test env ⟨none, some pbv, some mdv, sdav, sdbv,
          some sigv, some powv, alt, maxS⟩
        = .ok (ab_t2n_class.toResult ⟨some ((⌈r⌉ : ℤ) : K), some pbv,
            some mdv, sdav, sdbv, some sigv, some powv, alt, maxS⟩)) ∧
    (env.bisect (fun x => ab_t2n_class.get_n env.libs pbv mdv sdav sdbv
        sigv powv alt x) (max (5/pbv) (5/(1 - pbv))) (maxS + 1)
        = .error .valueError →
      env.bisect (fun x => ab_t2n_class.get_n env.libs pbv mdv sdav sdbv
        sigv powv alt x) (max (5/pbv) (5/(1 - pbv))) (maxS/10 + 1)
        = .error e →
      ab_t2n_class.pwr_test env ⟨none, some pbv, some mdv, sdav, sdbv,
          some sigv, some powv, alt, maxS⟩ = .error e) ∧
    (env.bisect (fun x => ab_t2n_prop_class.get_n env.libs pbv mdv sdav
        sdbv sigv powv alt x) (max (5/pbv) (5/(1 - pbv))) (maxS + 1)
        = .ok r →
      ab_t2n_prop_class.pwr_test env ⟨some papv, some pbpv, none, some pbv,
          some sigv, some powv, alt, maxS, some mdv, some sdav, some sdbv⟩
        = .ok (ab_t2n_prop_class.toResult ⟨some papv, some pbpv,
            some ((⌈r⌉ : ℤ) : K), some pbv, some sigv, some powv, alt,
            maxS, some mdv, some sdav, some sdbv⟩
            (some (.scalar papv)) (some (.scalar pbpv)))) ∧
    (env.bisect (fun x => ab_t2n_prop_class.get_n env.libs pbv mdv sdav
        sdbv sigv powv alt x) (max (5/pbv) (5/(1 - pbv))) (maxS + 1)
        = .error e →
      ab_t2n_prop_class.pwr_test env ⟨some papv, some pbpv, none, some pbv,
          some sigv, some powv, alt, maxS, some mdv, some sdav,
          some sdbv⟩ = .error e) := by
  refine ⟨?_, ?_, ?_, ?_, ?_⟩
  · intro h1
    simp only [ab_t2n_class.pwr_test, h1]
  · intro h1 h2
    simp only [ab_t2n_class.pwr_test, h1, h2]
  · intro h1 h2
    simp only [ab_t2n_class.pwr_test, h1, h2]
  · intro h1
    simp only [ab_t2n_prop_class.pwr_test, h1]
    rfl
  · intro h1
    simp only [ab_t2n_prop_class.pwr_test, h1]

/-- An environment over `ℚ` whose `bisect` finds the root `10.5` on
brackets with right endpoint at most `11` and reports a `ValueError` on
wider brackets (the other finders always fail). -/
def env4 : Env ℚ :=
  { libs := qlib
    bisect := fun _ _ b => if b ≤ 11 then .ok (21/2) else .error .valueError
    brentq := fun _ _ _ => .error .valueError
    ridder := fun _ _ _ => .error .valueError
    toms748 := fun _ _ _ => .error .valueError }

/-- Counterexample to C4 as stated: on a proportion solve with `n`
unknown whose wide bracket `[minN, maxSample+1]` fails while the narrow
bracket `[minN, maxSample/10+1]` would succeed, the claimed fallback
retry would return the ceiling of the root, but the proportion solver
surfaces the `ValueError` immediately. -/
theorem claim4_counterexample :
    ab_t2n_prop_class.pwr_test env4 ⟨some (4/5), some (2/5), none,
        some (1/2), some (1/20), some (4/5), "greater", 100, some (-(2/5)),
        some 0, some 0⟩ = .error .valueError ∧
    env4.bisect (fun x => ab_t2n_prop_class.get_n env4.libs (1/2) (-(2/5))
        0 0 (1/20) (4/5) "greater" x) (max (5/(1/2)) (5/(1 - 1/2)))
        (100/10 + 1) = .ok (21/2) := by
  constructor
  · simp only [ab_t2n_prop_class.pwr_test, env4]
    norm_num
  · simp only [env4]
    norm_num

/-- Witness for the amended C4: on the same environment the continuous
solver's wide bracket fails, the single retry succeeds, and the result is
the ceiling of the root found on the narrow bracket. -/
theorem claim4_witness :
    ab_t2n_class.pwr_test env4 ⟨none, some (1/2), some (-(2/5)), 0, 0,
        some (1/20), some (4/5), "greater", 100⟩
      = .ok (ab_t2n_class.toResult ⟨some ((⌈(21/2 : ℚ)⌉ : ℤ) : ℚ),
          some (1/2), some (-(2/5)), 0, 0, some (1/20), some (4/5),
          "greater", 100⟩) :=
  (claim4_n_retry_continuous_only env4 (1/2) (-(2/5)) 0 0 (1/20) (4/5) 100
      (4/5) (2/5) (21/2) "greater" .valueError).2.1
    (by simp only [env4]; norm_num)
    (by simp only [env4]; norm_num)

/-- An environment over `ℚ` whose `brentq` returns the left endpoint of
the bracket it is given (so a solve's result reveals the bracket). -/
def env5l : Env ℚ :=
  { libs := qlib
    bisect := fun _ _ _ => .error .valueError
    brentq := fun _ a _ => .ok a
    ridder := fun _ _ _ => .error .valueError
    toms748 := fun _ _ _ => .error .valueError }

/-- An environment over `ℚ` whose `brentq` returns the right endpoint of
the bracket it is given. -/
def env5r : Env ℚ :=
  { libs := qlib
    bisect := fun _ _ _ => .error .valueError
    brentq := fun _ _ b => .ok b
    ridder := fun _ _ _ => .error .valueError
    toms748 := fun _ _ _ => .error .valueError }

/-- Evidence for C5: evaluating the code with finders that return a
bracket endpoint shows the brackets actually used.  The `prop_a` branch
searches `(prop_b, 1)` for `Less` as the claim states, but the `prop_b`
branch searches `(prop_a, 1)` for `Less` and `(0, prop_a)` for `Greater`
— the *swap* of the feasible sub-intervals `(0, prop_a)` and
`(prop_a, 1)` that the claim (and the symmetry with the `prop_a` branch)
prescribes. -/
theorem claim5_code_bug_evidence :
    (ab_t2n_prop_class.pwr_test env5l ⟨none, some (2/5), some 3000,
        some (3/10), some (1/20), some (4/5), "less", 100, none, none,
        some 0⟩
      = .ok (ab_t2n_prop_class.toResult ⟨none, some (2/5), some 3000,
          some (3/10), some (1/20), some (4/5), "less", 100, none, none,
          some 0⟩ (some (.scalar (2/5))) (some (.scalar (2/5))))) ∧
    (ab_t2n_prop_class.pwr_test env5r ⟨none, some (2/5), some 3000,
        some (3/10), some (1/20), some (4/5), "less", 100, none, none,
        some 0⟩
      = .ok (ab_t2n_prop_class.toResult ⟨none, some (2/5), some 3000,
          some (3/10), some (1/20), some (4/5), "less", 100, none, none,
          some 0⟩ (some (.scalar 1)) (some (.scalar (2/5))))) ∧
    (ab_t2n_prop_class.pwr_test env5l ⟨some (4/5), none, some 3000,
        some (3/10), some (1/20), some (4/5), "less", 100, none, some 0,
        none⟩
      = .ok (ab_t2n_prop_class.toResult ⟨some (4/5), none, some 3000,
          some (3/10), some (1/20), some (4/5), "less", 100, none, some 0,
          none⟩ (some (.scalar (4/5))) (some (.scalar (4/5))))) ∧
    (ab_t2n_prop_class.pwr_test env5r ⟨some (4/5), none, some 3000,
        some (3/10), some (1/20), some (4/5), "less", 100, none, some 0,
        none⟩
      = .ok (ab_t2n_prop_class.toResult ⟨some (4/5), none, some 3000,
          some (3/10), some (1/20), some (4/5), "less", 100, none, some 0,
          none⟩ (some (.scalar (4/5))) (some (.scalar 1)))) ∧
    (ab_t2n_prop_class.pwr_test env5l ⟨some (4/5), none, some 3000,
        some (3/10), some (1/20), some (4/5), "greater", 100, none, some 0,
        none⟩
      = .ok (ab_t2n_prop_class.toResult ⟨some (4/5), none, some 3000,
          some (3/10), some (1/20), some (4/5), "greater", 100, none,
          some 0, none⟩ (some (.scalar (4/5))) (some (.scalar 0)))) ∧
    (ab_t2n_prop_class.pwr_test env5r ⟨some (4/5), none, some 3000,
        some (3/10), some (1/20), some (4/5), "greater", 100, none, some 0,
        none⟩
      = .ok (ab_t2n_prop_class.toResult ⟨some (4/5), none, some 3000,
          some (3/10), some (1/20), some (4/5), "greater", 100, none,
          some 0, none⟩ (some (.scalar (4/5))) (some (.scalar (4/5))))) := by
  refine ⟨?_, ?_, ?_, ?_, ?_, ?_⟩ <;>
    simp [ab_t2n_prop_class.pwr_test, ab_t2n_prop_class.toResult, env5l,
      env5r, Except.map]

/-- C7 (amended): every successful solve mutates only the missing field —
all other result fields equal their input values.  In the continuous
class the result is additionally fully populated.  In the proportion
class `n`, `percent_b`, `sig_level` and `power` are populated, but the
derived `mean_diff`/`sd_a`/`sd_b` are returned exactly as stored (so they
remain null after solving an unknown proportion), and a solved proportion
may itself be null when no root was found. -/
theorem claim7_frame_and_population {K : Type}
    [LinearOrderedField K] [FloorRing K] :
    (∀ (env : Env K) (st : ab_t2n_class.State K) res,
      ab_t2n_class.pwr_test env st = .ok res →
      res.sd_a = st.sd_a ∧ res.sd_b = st.sd_b ∧
      res.alternative = st.alternative ∧
      res.method = "t-test Power Calculation" ∧
      (∀ v, st.n = some v → res.n = some v) ∧
      (∀ v, st.percent_b = some v → res.percent_b = some v) ∧
      (∀ v, st.mean_diff = some v → res.mean_diff = some v) ∧
      (∀ v, st.sig_level = some v → res.sig_level = some v) ∧
      (∀ v, st.power = some v → res.power = some v) ∧
      res.n.isSome ∧ res.percent_b.isSome ∧ res.mean_diff.isSome ∧
      res.sig_level.isSome ∧ res.power.isSome) ∧
    (∀ (env : Env K) (st : ab_t2n_prop_class.State K) res,
      ab_t2n_prop_class.pwr_test env st = .ok res →
      res.mean_diff = st.mean_diff ∧ res.sd_a = st.sd_a ∧
      res.sd_b = st.sd_b ∧ res.alternative = st.alternative ∧
      res.method = "t-test Power Calculation" ∧
      (∀ v, st.n = some v → res.n = some v) ∧
      (∀ v, st.percent_b = some v → res.percent_b = some v) ∧
      (∀ v, st.sig_level = some v → res.sig_level = some v) ∧
      (∀ v, st.power = some v → res.power = some v) ∧
      (∀ v, st.prop_a = some v → res.prop_a = some (.scalar v)) ∧
      (∀ v, st.prop_b = some v → res.prop_b = some (.scalar v)) ∧
      res.n.isSome ∧ res.percent_b.isSome ∧ res.sig_level.isSome ∧
      res.power.isSome) := by
  constructor
  · intro env st res hok
    obtain ⟨n, pb, md, sda, sdb, sig, pow, alt, maxs⟩ := st
    simp only [ab_t2n_class.pwr_test] at hok
    repeat' split at hok
    all_goals first
      | exact (Except.noConfusion hok)
      | (injection hok with hres; subst hres;
         simp_all [ab_t2n_class.toResult])
  · intro env st res hok
    obtain ⟨pa, pb, n, pcb, sig, pow, alt, maxs, md, sda, sdb⟩ := st
    simp only [ab_t2n_prop_class.pwr_test] at hok
    repeat' split at hok
    all_goals first
      | exact (Except.noConfusion hok)
      | (injection hok with hres; subst hres;
         simp_all [ab_t2n_prop_class.toResult])

/-- Counterexample to C7 as stated: a *successful* two-sided solve of an
unknown `prop_a` (both ladder halves exhausting to "no root") returns a
result record whose `mean_diff` and `sd_a` fields are null — the derived
fields of the solved proportion are never recomputed — and whose solved
`prop_a` is itself null. -/
theorem claim7_counterexample :
    ab_t2n_prop_class.pwr_test qenv
      (ab_t2n_prop_class.init qlib none (some (2/5)) (some 100)
        (some (1/2)) (some (1/20)) (some (4/5)) "two-sided" 100)
      = .ok ⟨some 100, some (1/2), none, none, some 0, none,
          some (.scalar (2/5)), some (1/20), some (4/5), "two-sided",
          "t-test Power Calculation"⟩ := by
  simp [ab_t2n_prop_class.pwr_test, ab_t2n_prop_class.init,
    ab_t2n_prop_class.toResult, ab_t2n_prop_class.try_rungs,
    ab_t2n_prop_class.combine_roots, qenv, qlib,
    show pyCasefold "two-sided" = "two-sided" by decide]

/-- Witness for the amended C7: on a successful continuous power solve
the untouched `sd_a` field of the result equals its input value. -/
theorem claim7_witness :
    (⟨some 100, some (1/2), some (3/10), 1, 1, some (1/20), some (1/2),
        "greater", "t-test Power Calculation"⟩ :
      ab_t2n_class.Result ℚ).sd_a
      = (⟨some 100, some (1/2), some (3/10), 1, 1, some (1/20), none,
          "greater", 100⟩ : ab_t2n_class.State ℚ).sd_a :=
  (claim7_frame_and_population.1 qenv
    ⟨some 100, some (1/2), some (3/10), 1, 1, some (1/20), none,
      "greater", 100⟩
    ⟨some 100, some (1/2), some (3/10), 1, 1, some (1/20), some (1/2),
      "greater", "t-test Power Calculation"⟩
    (by
      simp [ab_t2n_class.pwr_test, ab_t2n_class.toResult,
        ab_t2n_class.get_power, qenv, qlib])).1

/-- C9: round-trip.  Solving for `power` from a given integer `n = m` and
then solving for `n` from that computed power (same other parameters)
reproduces the original `n` exactly after ceiling-rounding, provided the
bisection returns an exact root of the residual inside its bracket and
the residual has no other root there (the idealization of the bracketed
bisection on a strictly monotone residual). -/
theorem claim9_roundtrip {K : Type} [LinearOrderedField K] [FloorRing K]
    (env : Env K) (pbv mdv sdav sdbv sigv maxS r : K) (m : ℕ)
    (alt : String)
    (hb : env.bisect (fun x => ab_t2n_class.get_n env.libs pbv mdv sdav
        sdbv sigv (ab_t2n_class.get_power env.libs (m : K) pbv mdv sdav
          sdbv sigv alt) alt x)
      (max (5/pbv) (5/(1 - pbv))) (maxS + 1) = .ok r)
    (hroot : ab_t2n_class.get_n env.libs pbv mdv sdav sdbv sigv
      (ab_t2n_class.get_power env.libs (m : K) pbv mdv sdav sdbv sigv alt)
      alt r = 0)
    (hrin : max (5/pbv) (5/(1 - pbv)) ≤ r ∧ r ≤ maxS + 1)
    (huniq : ∀ x, max (5/pbv) (5/(1 - pbv)) ≤ x → x ≤ maxS + 1 →
      ab_t2n_class.get_n env.libs pbv mdv sdav sdbv sigv
        (ab_t2n_class.get_power env.libs (m : K) pbv mdv sdav sdbv sigv
          alt) alt x = 0 →
      x = (m : K)) :
    ∀ res1, ab_t2n_class.pwr_test env ⟨some (m : K), some pbv, some mdv,
        sdav, sdbv, some sigv, none, alt, maxS⟩ = .ok res1 →
    ∃ res2, ab_t2n_class.pwr_test env ⟨none, res1.percent_b,
        res1.mean_diff, res1.sd_a, res1.sd_b, res1.sig_level, res1.power,
        res1.alternative, maxS⟩ = .ok res2 ∧ res2.n = some (m : K) := by
  have hr : r = (m : K) := huniq r hrin.1 hrin.2 hroot
  subst hr
  intro res1 h1
  simp only [ab_t2n_class.pwr_test] at h1
  injection h1 with h1'
  subst h1'
  simp only [ab_t2n_class.toResult]
  refine ⟨ab_t2n_class.toResult ⟨some ((⌈(m : K)⌉ : ℤ) : K), some pbv,
    some mdv, sdav, sdbv, some sigv,
    some (ab_t2n_class.get_power env.libs (m : K) pbv mdv sdav sdbv sigv
      alt), alt, maxS⟩, ?_, ?_⟩
  · simp only [ab_t2n_class.pwr_test]
    rw [hb]
  · simp only [ab_t2n_class.toResult, Int.ceil_natCast, Int.cast_natCast]

/-- A rational library for which the greater-tail power formula reduces
to the noncentrality parameter itself (with `sqrt` the identity), making
the sample-size residual strictly monotone and exactly rootable. -/
def lib9 : Libs ℚ :=
  { sqrt := fun v => v
    nct_cdf := fun _ _ _ => 0
    nct_sf := fun _ _ nc => nc
    t_ppf := fun _ _ => 0
    t_isf := fun _ _ => 0 }

/-- An environment over `ℚ` whose `bisect` returns the exact root `16` of
the `lib9` residual used in the round-trip witness. -/
def env9 : Env ℚ :=
  { libs := lib9
    bisect := fun _ _ _ => .ok 16
    brentq := fun _ _ _ => .error .valueError
    ridder := fun _ _ _ => .error .valueError
    toms748 := fun _ _ _ => .error .valueError }

/-- Witness for C9: solving power from `n = 16` and then `n` from that
power returns `n = 16` again. -/
theorem claim9_witness :
    ∃ res2, ab_t2n_class.pwr_test env9 ⟨none, some (1/2), some 4, 1, 1,
        some (1/20), some 16, "greater", 100⟩ = .ok res2 ∧
      res2.n = some ((16 : ℕ) : ℚ) :=
  claim9_roundtrip env9 (1/2) 4 1 1 (1/20) 100 16 16 "greater"
    rfl
    (by
      simp only [ab_t2n_class.get_n, ab_t2n_class.get_power, env9, lib9]
      rw [if_neg (by decide), if_neg (by decide), if_neg (by decide),
        if_neg (by decide)]
      norm_num)
    (by constructor <;> norm_num)
    (by
      intro x hx1 hx2 hx0
      have hx10 : (10 : ℚ) ≤ x := le_trans (by norm_num) hx1
      simp only [ab_t2n_class.get_n, ab_t2n_class.get_power, env9, lib9]
        at hx0
      rw [if_neg (by decide), if_neg (by decide), if_neg (by decide),
        if_neg (by decide)] at hx0
      have hxpos : (0 : ℚ) < x := by linarith
      have hxne : x ≠ 0 := ne_of_gt hxpos
      have ha : x - x * (1/2) ≠ 0 := by intro h; nlinarith
      have hb2 : x * (1/2) ≠ 0 := by intro h; nlinarith
      have hc16 : 4 / ((1:ℚ)^2/(((16:ℕ):ℚ) - ((16:ℕ):ℚ) * (1/2))
          + (1:ℚ)^2/(((16:ℕ):ℚ) * (1/2))) = 16 := by
        push_cast
        norm_num
      rw [hc16] at hx0
      have hden : (1:ℚ)^2/(x - x * (1/2)) + (1:ℚ)^2/(x * (1/2))
          = 4 / x := by
        field_simp [hxne, ha, hb2]
        rw [show x * 2 - x = x from by ring, mul_div_assoc, div_self hxne]
        norm_num
      rw [hden] at hx0
      have hxx : (4:ℚ) / (4 / x) = x := by
        field_simp [hxne]
      rw [hxx] at hx0
      push_cast
      linarith)
    ⟨some ((16 : ℕ) : ℚ), some (1/2), some 4, 1, 1, some (1/20), some 16,
      "greater", "t-test Power Calculation"⟩
    (by
      simp only [ab_t2n_class.pwr_test, ab_t2n_class.toResult,
        ab_t2n_class.get_power, env9, lib9]
      rw [if_neg (by decide), if_neg (by decide)]
      norm_num)
